import Mathlib

/-!
Verification development for the omniroute analysis pipeline preprocessing
code. The development embeds, in Lean, the parts of the repository that the
theorems below concern:

* `count_rising_edges` from `src/testing/check_dio_pulses.py` (pandas
  `state.diff().fillna(0) == 1`, summed over all positions);
* the rising-edge decoder of the synchronization core (the module
  `utils/ts_sync.py` is not among the sources; its decoder is modelled from
  the specification, section 4.1);
* the metadata persistence layer of `src/utils/metadata.py`
  (`BaseMetadata.load_or_initialize_pickle` and `BaseMetadata.save_pickle`)
  together with the pipeline steps of
  `src/pipeline/preprocess_session_start.py`;
* the pose extraction script
  `src/experiment/example_experiment/scripts/extract_t_maze_position_ts.py`.

Machine integers do not occur: the Python code works with unbounded
integers, booleans and floats; floats are modelled as rationals.
-/

/-- Rising-edge test of `count_rising_edges` in `src/testing/check_dio_pulses.py`:
`state.diff().fillna(0) == 1` holds at position `i` exactly when `i` is at
least `1`, `state[i-1]` is low and `state[i]` is high; the `fillna(0)` makes
position `0` never an edge. -/
def risingEdgeAt (state : List Bool) : Nat → Bool
  | 0 => false
  | i + 1 => !(state.getD i false) && state.getD (i + 1) false

/-- Translation of `count_rising_edges` (`src/testing/check_dio_pulses.py`,
lines 26 to 32): the sum of the boolean edge series over all sample
positions. -/
def count_rising_edges (state : List Bool) : Nat :=
  (List.range state.length).countP (risingEdgeAt state)

/-- Modelled from the spec: the decoder of the missing module `utils/ts_sync.py`
returns the ordered sequence of sample indices of rising edges (section 4.1:
an edge lies at sample `i` where `state[i-1]` is false and `state[i]` is
true, and the first sample is never a rising edge). -/
def risingEdgeIndices (state : List Bool) : List Nat :=
  (List.range state.length).filter (risingEdgeAt state)

/-- Modelled from the spec: pulse times of the decoder, sample indices divided
by the sampling rate (section 4.1). -/
def risingEdgeTimes (state : List Bool) (sampling_rate_hz : ℚ) : List ℚ :=
  (risingEdgeIndices state).map (fun i => (i : ℚ) / sampling_rate_hz)

/-- Contribution of one consecutive pair of samples to the edge count. -/
def edgeStep (prev cur : Bool) : Nat :=
  if !prev && cur then 1 else 0

/-- Edge count of a trace, given the value of the sample just before it. -/
def edgeCountAux : Bool → List Bool → Nat
  | _, [] => 0
  | prev, x :: xs => edgeStep prev x + edgeCountAux x xs

/-- Edge test at position `i + 1` of the trace `x :: rest`, written with the
head sample explicit. -/
def edgeIdx (x : Bool) (rest : List Bool) (i : Nat) : Bool :=
  !((x :: rest).getD i false) && rest.getD i false

/-- Value bag of a Python `SimpleNamespace`, as an association list. -/
abbrev PyNamespace := List (String × String)

/-- Version dictionary produced by `utils/versioning.get_version_info`. -/
abbrev VersionInfo := List (String × String)

/-- Modelled from the spec: the timestamp mapping that the missing module
`utils/ts_sync.py` computes. The field names follow the dictionary keys used
at line 125 of `src/pipeline/preprocess_session_start.py` (`poly_coeffs`,
`r_squared`); the degree comes from section 3 of the spec. -/
structure ClockMapping where
  poly_coeffs : List ℚ
  r_squared : ℚ
  degree : Nat
deriving DecidableEq

/-- Live `EphysMetadata` object of `src/utils/metadata.py` (channel-map lists
are omitted: no statement below concerns them). -/
structure EphysMetadata where
  rat_id : String
  session_name : String
  sampling_rate_hz : Option ℚ
  timestamp_mapping : Option ClockMapping
  custom : Option PyNamespace
  version_info : Option VersionInfo
deriving DecidableEq

/-- Attribute dictionary of a pickled `EphysMetadata` on disk. The attributes
`custom` and `version_info` carry an outer `Option` for presence of the
attribute in the stored dictionary and an inner `Option` for a stored Python
`None`. -/
structure PickledEphys where
  rat_id : String
  session_name : String
  sampling_rate_hz : Option ℚ
  timestamp_mapping : Option ClockMapping
  custom : Option (Option PyNamespace)
  version_info : Option (Option VersionInfo)
deriving DecidableEq

/-- Constructor of `EphysMetadata` (`src/utils/metadata.py`, lines 184 to 198,
via `BaseMetadata.__init__`, lines 46 to 48): fresh namespace, empty version
dictionary, no sampling rate, no timestamp mapping. -/
def EphysMetadata.init (rat_id session_name : String) : EphysMetadata :=
  { rat_id := rat_id
    session_name := session_name
    sampling_rate_hz := none
    timestamp_mapping := none
    custom := some []
    version_info := some [] }

/-- Pickling a live object: every attribute of the live object is present in
the stored dictionary. -/
def EphysMetadata.pickle (m : EphysMetadata) : PickledEphys :=
  { rat_id := m.rat_id
    session_name := m.session_name
    sampling_rate_hz := m.sampling_rate_hz
    timestamp_mapping := m.timestamp_mapping
    custom := some m.custom
    version_info := some m.version_info }

/-- Translation of `BaseMetadata.load_or_initialize_pickle`
(`src/utils/metadata.py`, lines 50 to 73), instantiated at `EphysMetadata`.
When the pickle exists, `self.__dict__.update(loaded.__dict__)` copies every
attribute present on the loaded object onto `self`; an attribute absent from
the pickle keeps the value set by `__init__`, so `hasattr` is always true
afterwards and only the `is None` halves of the two guards can fire. The
guards then restore `custom` and `version_info`. When no pickle exists, the
object receives a fresh namespace and the current version information, and
`post_initialize` stores the sampling rate read from the recording (the
reading itself is external input, passed here as `recRate`; the channel-map
loading touches no field modelled here). -/
def load_or_initialize_pickle (self : EphysMetadata) (disk : Option PickledEphys)
    (vinfo : VersionInfo) (recRate : ℚ) : EphysMetadata :=
  match disk with
  | some loaded =>
      let s1 : EphysMetadata :=
        { rat_id := loaded.rat_id
          session_name := loaded.session_name
          sampling_rate_hz := loaded.sampling_rate_hz
          timestamp_mapping := loaded.timestamp_mapping
          custom := loaded.custom.getD self.custom
          version_info := loaded.version_info.getD self.version_info }
      let s2 := if s1.custom.isNone then { s1 with custom := some [] } else s1
      if s2.version_info.isNone then { s2 with version_info := some vinfo } else s2
  | none =>
      { self with
          custom := some []
          version_info := some vinfo
          sampling_rate_hz := some recRate }

/-- Events observable at the storage boundary of `BaseMetadata.save_pickle`:
either the object was written, or the existing pickle was kept and the
warning that it already exists was logged. -/
inductive SaveEvent where
  | saved
  | alreadyExistsWarning
deriving DecidableEq

/-- Translation of `BaseMetadata.save_pickle` (`src/utils/metadata.py`, lines
76 to 90): when the pickle path exists and `overwrite` is false, the method
logs the already-exists warning and returns without writing; otherwise it
writes the object to the pickle path. -/
def save_pickle {α : Type} (disk : Option α) (obj : α) (overwrite : Bool) :
    Option α × SaveEvent :=
  if disk.isSome && !overwrite then (disk, SaveEvent.alreadyExistsWarning)
  else (some obj, SaveEvent.saved)

/-- States of the pickle file on disk at byte granularity, for reasoning about
interruption: absent, truncated by an incomplete write, or holding a complete
object. -/
inductive FileState (α : Type) where
  | absent
  | truncated
  | complete (a : α)
deriving DecidableEq

/-- Existence test of the pickle path: a truncated file still exists. -/
def FileState.existsOnDisk {α : Type} : FileState α → Bool
  | FileState.absent => false
  | _ => true

/-- Translation of `BaseMetadata.save_pickle` at file-system granularity. The
writing branch performs two effects in order: `open(pickle_path, "wb")`,
which truncates the file in place, then the completed `pickle.dump`. The
argument `stepsDone` counts how many of the two effects finished before the
process stopped; no temporary file and no rename occur in the source. -/
def save_pickle_interrupted {α : Type} (disk : FileState α) (obj : α)
    (overwrite : Bool) (stepsDone : Nat) : FileState α :=
  if disk.existsOnDisk && !overwrite then disk
  else if stepsDone = 0 then disk
  else if stepsDone = 1 then FileState.truncated
  else FileState.complete obj

/-- Name of the method that `setup_session_metadata` and
`setup_timestamp_sync` invoke on their freshly constructed metadata
objects. -/
def loadOrInitializeAttr : String := "load_or_initialize"

/-- Class name appearing in the raised attribute error. -/
def sessionMetadataClassName : String := "SessionMetadata"

/-- Methods defined on `BaseMetadata` in `src/utils/metadata.py` (lines 36 to
129). -/
def baseMetadataMethods : List String :=
  ["load_or_initialize_pickle", "save_pickle", "set_custom_field",
   "print_metadata_fields", "post_initialize", "_get_pickle_path"]

/-- Methods resolvable on a `SessionMetadata` instance: the overrides defined
by `SessionMetadata` (lines 136 to 172) followed by the inherited base
methods. -/
def sessionMetadataMethods : List String :=
  ["post_initialize", "_get_pickle_path"] ++ baseMetadataMethods

/-- Python errors surfacing in the modelled pipeline steps. -/
inductive PyError where
  | attributeError (cls attr : String)
deriving DecidableEq

/-- Attribute dictionary of a pickled `SessionMetadata` (path fields omitted:
no statement below concerns them). -/
structure PickledSession where
  rat_id : String
  session_name : String
  session_type : Option String
  custom : Option (Option PyNamespace)
  version_info : Option (Option VersionInfo)
deriving DecidableEq

/-- Persisted per-session state: the two pickle slots that
`src/pipeline/preprocess_session_start.py` reads and writes. -/
structure MetadataStore where
  session_slot : Option PickledSession
  ephys_slot : Option PickledEphys
deriving DecidableEq

/-- External inputs of one pipeline run: identifiers, whether the recording
file exists (which decides the session type), the version information, the
sampling rate read from the recording, and the mapping that
`compute_ts_sync_parameters` would return. -/
structure SyncEnv where
  rat_id : String
  session_name : String
  sessionIsEphys : Bool
  vinfo : VersionInfo
  recRate : ℚ
  computedMapping : ClockMapping
deriving DecidableEq

/-- Session type recorded for sessions with a recording file. -/
def sessionTypeEphys : String := "ephys"

/-- Session type recorded for sessions without a recording file. -/
def sessionTypeBehaviour : String := "behaviour"

/-- Modelled from the spec: the body that `setup_session_metadata` was meant
to run had the call `session.load_or_initialize()` resolved (initialize the
session record, save it, and for an ephys session initialize and save the
ephys record; sections 5 and 6 of the spec give the storage semantics). The
actual function never reaches this body. -/
def setup_session_metadata_intended (st : MetadataStore) (env : SyncEnv)
    (overwrite : Bool) : Option PyError × MetadataStore :=
  let sessionRecord : PickledSession :=
    { rat_id := env.rat_id
      session_name := env.session_name
      session_type :=
        some (if env.sessionIsEphys then sessionTypeEphys else sessionTypeBehaviour)
      custom := some (some [])
      version_info := some (some env.vinfo) }
  let slot1 := (save_pickle st.session_slot sessionRecord overwrite).1
  let st1 : MetadataStore := { st with session_slot := slot1 }
  if env.sessionIsEphys then
    let ephys := load_or_initialize_pickle
      (EphysMetadata.init env.rat_id env.session_name) st1.ephys_slot env.vinfo env.recRate
    let slot2 := (save_pickle st1.ephys_slot ephys.pickle overwrite).1
    (none, { st1 with ephys_slot := slot2 })
  else (none, st1)

/-- Translation of `setup_session_metadata`
(`src/pipeline/preprocess_session_start.py`, lines 25 to 52). The first
statement of the body after the constructor is
`session.load_or_initialize()`; Python resolves the attribute on the
instance before calling, the resolution consults the methods the class
defines, and `load_or_initialize` is not among them, so the call raises
`AttributeError` and the function ends there with the store untouched. The
remaining statements are kept as the separate intended body, which is
unreachable. -/
def setup_session_metadata (st : MetadataStore) (env : SyncEnv)
    (overwrite : Bool) : Option PyError × MetadataStore :=
  if sessionMetadataMethods.contains loadOrInitializeAttr then
    setup_session_metadata_intended st env overwrite
  else
    (some (PyError.attributeError sessionMetadataClassName loadOrInitializeAttr), st)

/-- Modelled from the spec: the body that `setup_timestamp_sync` was meant to
run had `load_or_initialize` resolved (lines 96 to 126 of
`src/pipeline/preprocess_session_start.py`, with the loading calls replaced
by the defined `load_or_initialize_pickle`): skip non-ephys sessions, skip
when a mapping is present and `overwrite` is false, otherwise compute the
mapping, attach it to the record and save the record. The actual function
never reaches this body. -/
def setup_timestamp_sync_intended (st : MetadataStore) (env : SyncEnv)
    (overwrite : Bool) : Option PyError × MetadataStore :=
  if !env.sessionIsEphys then (none, st)
  else
    let ephys := load_or_initialize_pickle
      (EphysMetadata.init env.rat_id env.session_name) st.ephys_slot env.vinfo env.recRate
    if ephys.timestamp_mapping.isSome && !overwrite then (none, st)
    else
      let ephys2 := { ephys with timestamp_mapping := some env.computedMapping }
      let slot2 := (save_pickle st.ephys_slot ephys2.pickle overwrite).1
      (none, { st with ephys_slot := slot2 })

/-- Translation of `setup_timestamp_sync`
(`src/pipeline/preprocess_session_start.py`, lines 78 to 126). As in
`setup_session_metadata`, the first statement after the constructor is
`session.load_or_initialize()`, whose attribute resolution fails, so the
function raises `AttributeError` with the store untouched; everything after
that statement is unreachable. -/
def setup_timestamp_sync (st : MetadataStore) (env : SyncEnv)
    (overwrite : Bool) : Option PyError × MetadataStore :=
  if sessionMetadataMethods.contains loadOrInitializeAttr then
    setup_timestamp_sync_intended st env overwrite
  else
    (some (PyError.attributeError sessionMetadataClassName loadOrInitializeAttr), st)

/-- Primary pose topic of `extract_pose_timeseries` (checked first). -/
def headstageTopicName : String := "/headstage_pose_in_maze"

/-- Fallback pose topic of `extract_pose_timeseries`. -/
def harnessTopicName : String := "/harness_pose_in_maze"

/-- Source tag written when the primary topic is used. -/
def headstageSourceName : String := "headstage"

/-- Source tag written when the fallback topic is used. -/
def harnessSourceName : String := "harness"

/-- One deserialized pose message of a bag file. -/
structure PoseMsg where
  time : ℚ
  x : ℚ
  y : ℚ
  z : ℚ
deriving DecidableEq

/-- One output row of `extract_pose_timeseries`. -/
structure PoseRecord where
  time : ℚ
  x : ℚ
  y : ℚ
  z : ℚ
  source : String
deriving DecidableEq

/-- One connection of a bag file: a topic with its messages. -/
structure BagConnection where
  topic : String
  msgs : List PoseMsg
deriving DecidableEq

/-- A bag file as the reader presents it: its connections. -/
structure BagFile where
  connections : List BagConnection
deriving DecidableEq

/-- Topic list of a bag, as built at line 55 of
`src/experiment/example_experiment/scripts/extract_t_maze_position_ts.py`. -/
def bagTopics (bag : BagFile) : List String :=
  bag.connections.map BagConnection.topic

/-- Messages of the connections with the chosen topic (the reader yields them
in time order; the order does not matter to the statements below). -/
def topicMessages (bag : BagFile) (t : String) : List PoseMsg :=
  (bag.connections.filter (fun c => c.topic == t)).flatMap BagConnection.msgs

/-- Translation of `extract_pose_timeseries`
(`src/experiment/example_experiment/scripts/extract_t_maze_position_ts.py`,
lines 49 to 81): prefer the headstage topic, fall back to the harness topic,
and return the empty list when neither topic exists in the bag. -/
def extract_pose_timeseries (bag : BagFile) : List PoseRecord :=
  if (bagTopics bag).contains headstageTopicName then
    (topicMessages bag headstageTopicName).map
      (fun m => { time := m.time, x := m.x, y := m.y, z := m.z, source := headstageSourceName })
  else if (bagTopics bag).contains harnessTopicName then
    (topicMessages bag harnessTopicName).map
      (fun m => { time := m.time, x := m.x, y := m.y, z := m.z, source := harnessSourceName })
  else
    []

/-- Outcome of one iteration of the session loop of `main` (lines 107 to 127
of the same script). -/
inductive SessionOutcome where
  | skippedExisting
  | noBagFiles
  | skippedNoPose
  | savedPositions (n : Nat)
deriving DecidableEq

/-- One session directory as the loop sees it: its name, whether the output
file already exists, and its bag files. -/
structure SessionDir where
  name : String
  hasExistingOutput : Bool
  bags : List BagFile
deriving DecidableEq

/-- Translation of the body of the session loop of `main` (lines 107 to 127):
skip sessions with existing output, skip sessions without bags, extract from
the first bag, skip the session when no records were found, otherwise save
them. Every branch ends in `continue`, never in an exception. -/
def processSession (sess : SessionDir) : SessionOutcome :=
  if sess.hasExistingOutput then SessionOutcome.skippedExisting
  else
    match sess.bags with
    | [] => SessionOutcome.noBagFiles
    | bag :: _ =>
      if (extract_pose_timeseries bag).isEmpty then SessionOutcome.skippedNoPose
      else SessionOutcome.savedPositions (extract_pose_timeseries bag).length

/-- The session loop of `main` over a list of session directories. -/
def processAllSessions (sessions : List SessionDir) : List SessionOutcome :=
  sessions.map processSession

/-- Concrete mapping used by witnesses. -/
def sampleMapping : ClockMapping :=
  { poly_coeffs := [1, 10], r_squared := 1, degree := 1 }

/-- Concrete pickled ephys record used by witnesses. -/
def samplePickledEphys (tm : Option ClockMapping) : PickledEphys :=
  { rat_id := "NC40023"
    session_name := "20250806_170156"
    sampling_rate_hz := some 30000
    timestamp_mapping := tm
    custom := some (some [])
    version_info := some (some []) }

/-- Concrete environment used by witnesses. -/
def sampleEnv : SyncEnv :=
  { rat_id := "NC40023"
    session_name := "20250806_170156"
    sessionIsEphys := true
    vinfo := []
    recRate := 30000
    computedMapping := sampleMapping }

/-- Concrete live ephys record holding a mapping, used by witnesses. -/
def sampleEphysWithMapping : EphysMetadata :=
  { EphysMetadata.init ("NC40023") ("20250806_170156") with
      timestamp_mapping := some sampleMapping }

/-- Concrete bag without either pose topic, used by witnesses. -/
def sampleBagNoPose : BagFile :=
  { connections := [{ topic := "/rosout", msgs := [] }] }

/-- Concrete bag with the headstage topic, used by witnesses. -/
def sampleBagHeadstage : BagFile :=
  { connections :=
      [{ topic := "/headstage_pose_in_maze"
         msgs := [{ time := 0, x := 1, y := 2, z := 3 }] }] }

theorem risingEdgeAt_lt (s : List Bool) (i : Nat) (h : risingEdgeAt s i = true) :
    i < s.length := by
  cases i with
  | zero => simp [risingEdgeAt] at h
  | succ j =>
    simp only [risingEdgeAt, Bool.and_eq_true] at h
    by_contra hle
    push_neg at hle
    rw [List.getD_eq_default _ _ hle] at h
    exact Bool.false_ne_true h.2

theorem filter_range_eq_single (p : Nat → Bool) (n i : Nat) (hi : i < n)
    (hp : p i = true) (hu : ∀ j, p j = true → j = i) :
    (List.range n).filter p = [i] := by
  induction n with
  | zero => omega
  | succ m ih =>
    rw [List.range_succ, List.filter_append]
    by_cases hm : p m = true
    · have hmi : m = i := hu m hm
      subst hmi
      have h1 : (List.range m).filter p = [] := by
        rw [List.filter_eq_nil_iff]
        intro a ha hpa
        have h2 := hu a hpa
        have h3 := List.mem_range.mp ha
        omega
      simp [h1, hm]
    · have him : i ≠ m := fun hem => hm (hem ▸ hp)
      have hi2 : i < m := by omega
      rw [ih hi2]
      simp [hm]

theorem countP_range_succ (p : Nat → Bool) (n : Nat) :
    (List.range (n + 1)).countP p
      = (if p 0 then 1 else 0) + (List.range n).countP (fun i => p (i + 1)) := by
  rw [List.range_succ_eq_map, List.countP_cons, List.countP_map]
  exact Nat.add_comm _ _

theorem risingEdgeAt_succ_cons (x : Bool) (rest : List Bool) (i : Nat) :
    risingEdgeAt (x :: rest) (i + 1) = edgeIdx x rest i := rfl

theorem edgeIdx_succ (x y : Bool) (rest : List Bool) (i : Nat) :
    edgeIdx x (y :: rest) (i + 1) = edgeIdx y rest i := rfl

theorem countP_edgeIdx (rest : List Bool) :
    ∀ x : Bool, (List.range rest.length).countP (edgeIdx x rest) = edgeCountAux x rest := by
  induction rest with
  | nil => intro x; rfl
  | cons y rest ih =>
    intro x
    show (List.range (rest.length + 1)).countP (edgeIdx x (y :: rest))
      = edgeStep x y + edgeCountAux y rest
    rw [countP_range_succ]
    have h1 : (fun i => edgeIdx x (y :: rest) (i + 1)) = edgeIdx y rest :=
      funext (fun i => edgeIdx_succ x y rest i)
    rw [h1, ih y]
    rfl

theorem count_rising_edges_cons (x : Bool) (rest : List Bool) :
    count_rising_edges (x :: rest) = edgeCountAux x rest := by
  show (List.range (rest.length + 1)).countP (risingEdgeAt (x :: rest))
    = edgeCountAux x rest
  rw [countP_range_succ]
  have h1 : (fun i => risingEdgeAt (x :: rest) (i + 1)) = edgeIdx x rest :=
    funext (fun i => risingEdgeAt_succ_cons x rest i)
  rw [h1, countP_edgeIdx rest x]
  simp [risingEdgeAt]

theorem edgeCountAux_false_replicate (m : Nat) (xs : List Bool) :
    edgeCountAux false (List.replicate m false ++ xs) = edgeCountAux false xs := by
  induction m with
  | zero => rfl
  | succ k ih =>
    show edgeStep false false + edgeCountAux false (List.replicate k false ++ xs)
      = edgeCountAux false xs
    rw [ih]
    simp [edgeStep]

theorem edgeCountAux_false_eq (xs : List Bool) :
    edgeCountAux false xs
      = count_rising_edges xs + (if xs.head? = some true then 1 else 0) := by
  cases xs with
  | nil => rfl
  | cons x rest =>
    rw [count_rising_edges_cons]
    show edgeStep false x + edgeCountAux x rest
      = edgeCountAux x rest + (if (x :: rest).head? = some true then 1 else 0)
    cases x <;> simp [edgeStep, Nat.add_comm]

theorem sessionMetadataMethods_no_load_or_initialize :
    sessionMetadataMethods.contains loadOrInitializeAttr = false := by decide

theorem loadOrInitialize_not_mem :
    loadOrInitializeAttr ∉ sessionMetadataMethods := by decide

/-- C5. For every digital pulse trace containing a single isolated rising
edge at sample `i` (the sample before `i` is low, sample `i` is high, and no
other low to high transition occurs), the decoder returns exactly one pulse
time, equal to `i / sampling_rate_hz`, the edge count of
`count_rising_edges` is one, and the first sample of a trace is never itself
counted as a rising edge. -/
theorem c5_single_rising_edge (state : List Bool) (rate : ℚ) (i : Nat)
    (hedge : risingEdgeAt state i = true)
    (huniq : ∀ j, risingEdgeAt state j = true → j = i) :
    risingEdgeTimes state rate = [(i : ℚ) / rate] ∧
    count_rising_edges state = 1 ∧
    ∀ s : List Bool, 0 ∉ risingEdgeIndices s := by
  have hlt : i < state.length := risingEdgeAt_lt state i hedge
  have hfil : risingEdgeIndices state = [i] :=
    filter_range_eq_single (risingEdgeAt state) state.length i hlt hedge huniq
  refine ⟨?_, ?_, ?_⟩
  · simp [risingEdgeTimes, hfil]
  · have hlen : count_rising_edges state = (risingEdgeIndices state).length := by
      simp [count_rising_edges, risingEdgeIndices, List.countP_eq_length_filter]
    rw [hlen, hfil]
    rfl
  · intro s hmem
    simp [risingEdgeIndices, List.mem_filter, risingEdgeAt] at hmem

/-- Witness for C5 at a concrete trace with one isolated edge at sample 1 and
a sampling rate of 30000. -/
theorem c5_single_rising_edge_witness :
    risingEdgeTimes [false, true, false] 30000 = [(1 : ℚ) / 30000] ∧
    count_rising_edges [false, true, false] = 1 ∧
    ∀ s : List Bool, 0 ∉ risingEdgeIndices s :=
  c5_single_rising_edge [false, true, false] 30000 1 (by decide)
    (fun j hj =>
      (by decide : ∀ j, j < 3 → risingEdgeAt [false, true, false] j = true → j = 1) j
        (risingEdgeAt_lt [false, true, false] j hj) hj)

/-- C6 counterexample: the trace `[true]` has no rising edge (the first
sample is never one), but prepending a single false sample creates a low to
high transition at the boundary, so the rising-edge count is not invariant
under prefixing with false samples. -/
theorem c6_counterexample :
    ¬ (count_rising_edges (List.replicate 1 false ++ [true])
        = count_rising_edges [true]) := by decide

/-- C6 (amended). Prepending a run of `n` false samples leaves the
rising-edge count unchanged for every trace that does not begin with a high
sample; when `n` is positive and the trace begins with a high sample, the
boundary forms one new low to high transition (which the unprefixed trace
never counts, its first sample not being an edge), so the count grows by
exactly one. -/
theorem c6_replicate_false_append (n : Nat) (xs : List Bool) :
    count_rising_edges (List.replicate n false ++ xs)
      = count_rising_edges xs
        + (if n ≠ 0 ∧ xs.head? = some true then 1 else 0) := by
  cases n with
  | zero => simp
  | succ m =>
    have h : List.replicate (m + 1) false ++ xs
        = false :: (List.replicate m false ++ xs) := rfl
    rw [h, count_rising_edges_cons, edgeCountAux_false_replicate,
      edgeCountAux_false_eq]
    congr 1
    simp

/-- C2. Calling the store operation a second time without `overwrite` leaves
the first persisted result unchanged, and the second call takes the branch
that logs the already-exists warning instead of writing. -/
theorem c2_second_save_signals_already_exists (m1 m2 : EphysMetadata) :
    (save_pickle none m1.pickle false).1 = some m1.pickle ∧
    save_pickle (save_pickle none m1.pickle false).1 m2.pickle false
      = (some m1.pickle, SaveEvent.alreadyExistsWarning) := by
  constructor <;> rfl

/-- C3 counterexample: with an existing complete record and overwrite
requested, stopping the process after the truncating open but before the
dump completes leaves the file truncated, which is neither the previous
complete record nor the new one, so the check-then-write sequence of
`save_pickle` is not atomic. -/
theorem c3_counterexample :
    save_pickle_interrupted (FileState.complete (samplePickledEphys none))
        (samplePickledEphys (some sampleMapping)) true 1
      = FileState.truncated ∧
    FileState.truncated ≠ FileState.complete (samplePickledEphys none) ∧
    FileState.truncated
      ≠ FileState.complete (samplePickledEphys (some sampleMapping)) :=
  ⟨rfl, fun h => FileState.noConfusion h, fun h => FileState.noConfusion h⟩

/-- C3 (amended). `save_pickle` checks existence and then writes directly to
the final pickle path, with no temporary file and no rename: the skip branch
(existing file, `overwrite` false) leaves the previous result intact under
every interruption, but on the write branch with `overwrite` set, an
interruption between the truncating open and the completed dump leaves the
previous result destroyed, as a truncated file. -/
theorem c3_direct_write_not_atomic (p q : PickledEphys) (steps : Nat) :
    save_pickle_interrupted (FileState.complete p) q false steps
      = FileState.complete p ∧
    save_pickle_interrupted (FileState.complete p) q true 1
      = FileState.truncated := by
  constructor
  · simp [save_pickle_interrupted, FileState.existsOnDisk]
  · rfl

/-- C4. For every store state, environment and overwrite flag,
`setup_session_metadata` and likewise `setup_timestamp_sync` raise
`AttributeError` at the call `session.load_or_initialize()`, because the
metadata classes define only `load_or_initialize_pickle` and no
`load_or_initialize` method; both functions therefore fail before writing
any metadata, leaving the store unchanged. -/
theorem c4_attribute_error_before_any_write (st : MetadataStore) (env : SyncEnv)
    (overwrite : Bool) :
    setup_session_metadata st env overwrite
      = (some (PyError.attributeError sessionMetadataClassName loadOrInitializeAttr), st) ∧
    setup_timestamp_sync st env overwrite
      = (some (PyError.attributeError sessionMetadataClassName loadOrInitializeAttr), st) := by
  constructor <;>
    simp [setup_session_metadata, setup_timestamp_sync,
      sessionMetadataMethods_no_load_or_initialize, loadOrInitialize_not_mem]

/-- C1 (code evidence). For every session whose persisted ephys record exists
without a timestamp mapping, running the synchronization step with
`overwrite` false does not compute or store any mapping: the call raises
`AttributeError` before any statement of its body runs, and afterwards the
persisted record still has no mapping, so the mapping never becomes
present. -/
theorem c1_sync_never_stores_mapping (st : MetadataStore) (env : SyncEnv)
    (p : PickledEphys) (h1 : st.ephys_slot = some p)
    (h2 : p.timestamp_mapping = none) :
    setup_timestamp_sync st env false
      = (some (PyError.attributeError sessionMetadataClassName loadOrInitializeAttr), st) ∧
    (setup_timestamp_sync st env false).2.ephys_slot = some p ∧
    p.timestamp_mapping = none := by
  have hmain : setup_timestamp_sync st env false
      = (some (PyError.attributeError sessionMetadataClassName loadOrInitializeAttr), st) := by
    simp [setup_timestamp_sync, sessionMetadataMethods_no_load_or_initialize, loadOrInitialize_not_mem]
  exact ⟨hmain, by rw [hmain]; exact h1, h2⟩

/-- Witness for C1 at a concrete store holding an ephys record without a
mapping. -/
theorem c1_sync_never_stores_mapping_witness :
    setup_timestamp_sync
        { session_slot := none, ephys_slot := some (samplePickledEphys none) }
        sampleEnv false
      = (some (PyError.attributeError sessionMetadataClassName loadOrInitializeAttr),
         { session_slot := none, ephys_slot := some (samplePickledEphys none) }) ∧
    (setup_timestamp_sync
        { session_slot := none, ephys_slot := some (samplePickledEphys none) }
        sampleEnv false).2.ephys_slot = some (samplePickledEphys none) ∧
    (samplePickledEphys none).timestamp_mapping = none :=
  c1_sync_never_stores_mapping
    { session_slot := none, ephys_slot := some (samplePickledEphys none) }
    sampleEnv (samplePickledEphys none) rfl rfl

/-- C8 (code evidence). For every session whose persisted record already
contains a timestamp mapping, invoking the synchronization step with
`overwrite` false raises `AttributeError` instead of returning normally; the
store, and with it the stored mapping, stays unchanged only because the
failure happens before any statement of the body runs, not because the
skip branch was taken. -/
theorem c8_skip_branch_unreachable (st : MetadataStore) (env : SyncEnv)
    (p : PickledEphys) (cm : ClockMapping) (_h1 : st.ephys_slot = some p)
    (_h2 : p.timestamp_mapping = some cm) :
    setup_timestamp_sync st env false
      = (some (PyError.attributeError sessionMetadataClassName loadOrInitializeAttr), st) ∧
    (setup_timestamp_sync st env false).2 = st := by
  have hmain : setup_timestamp_sync st env false
      = (some (PyError.attributeError sessionMetadataClassName loadOrInitializeAttr), st) := by
    simp [setup_timestamp_sync, sessionMetadataMethods_no_load_or_initialize, loadOrInitialize_not_mem]
  exact ⟨hmain, by rw [hmain]⟩

/-- Witness for C8 at a concrete store holding an ephys record with a
mapping. -/
theorem c8_skip_branch_unreachable_witness :
    setup_timestamp_sync
        { session_slot := none,
          ephys_slot := some (samplePickledEphys (some sampleMapping)) }
        sampleEnv false
      = (some (PyError.attributeError sessionMetadataClassName loadOrInitializeAttr),
         { session_slot := none,
           ephys_slot := some (samplePickledEphys (some sampleMapping)) }) ∧
    (setup_timestamp_sync
        { session_slot := none,
          ephys_slot := some (samplePickledEphys (some sampleMapping)) }
        sampleEnv false).2
      = { session_slot := none,
          ephys_slot := some (samplePickledEphys (some sampleMapping)) } :=
  c8_skip_branch_unreachable
    { session_slot := none,
      ephys_slot := some (samplePickledEphys (some sampleMapping)) }
    sampleEnv (samplePickledEphys (some sampleMapping)) sampleMapping rfl rfl

/-- C9. Storing a record holding a `ClockMapping` with `save_pickle` and
reloading it with `load_or_initialize_pickle` yields a mapping whose
coefficients, goodness of fit and degree equal the stored values exactly:
the persistence format round-trips the mapping. -/
theorem c9_mapping_roundtrip (m : EphysMetadata) (cm : ClockMapping)
    (vinfo : VersionInfo) (rate : ℚ) (rat sess : String)
    (h : m.timestamp_mapping = some cm) :
    (load_or_initialize_pickle (EphysMetadata.init rat sess)
        (save_pickle none m.pickle false).1 vinfo rate).timestamp_mapping
      = some cm ∧
    ∃ cm2,
      (load_or_initialize_pickle (EphysMetadata.init rat sess)
          (save_pickle none m.pickle false).1 vinfo rate).timestamp_mapping
        = some cm2
      ∧ cm2.poly_coeffs = cm.poly_coeffs ∧ cm2.r_squared = cm.r_squared
      ∧ cm2.degree = cm.degree := by
  have hmain : (load_or_initialize_pickle (EphysMetadata.init rat sess)
      (save_pickle none m.pickle false).1 vinfo rate).timestamp_mapping
      = some cm := by
    cases hc : m.custom <;> cases hv : m.version_info <;>
      simp [load_or_initialize_pickle, save_pickle, EphysMetadata.pickle, h, hc, hv]
  exact ⟨hmain, cm, hmain, rfl, rfl, rfl⟩

/-- Witness for C9 at a concrete record holding a concrete mapping. -/
theorem c9_mapping_roundtrip_witness :
    sampleEphysWithMapping.timestamp_mapping = some sampleMapping ∧
    ((load_or_initialize_pickle (EphysMetadata.init ("NC40023") ("20250806_170156"))
        (save_pickle none sampleEphysWithMapping.pickle false).1 [] 30000).timestamp_mapping
      = some sampleMapping ∧
    ∃ cm2,
      (load_or_initialize_pickle (EphysMetadata.init ("NC40023") ("20250806_170156"))
          (save_pickle none sampleEphysWithMapping.pickle false).1 [] 30000).timestamp_mapping
        = some cm2
      ∧ cm2.poly_coeffs = sampleMapping.poly_coeffs
      ∧ cm2.r_squared = sampleMapping.r_squared
      ∧ cm2.degree = sampleMapping.degree) :=
  ⟨rfl, c9_mapping_roundtrip sampleEphysWithMapping sampleMapping [] 30000
    ("NC40023") ("20250806_170156") rfl⟩

/-- C10. After `load_or_initialize_pickle` returns, the `custom` attribute is
a present namespace and `version_info` a present dictionary, in every case:
fresh initialization with no pickle on disk, loading a pickle that has both
attributes, and loading a pickle in which either attribute is missing or
holds a Python `None`. -/
theorem c10_custom_and_version_present (rat sess : String)
    (disk : Option PickledEphys) (vinfo : VersionInfo) (rate : ℚ) :
    (load_or_initialize_pickle (EphysMetadata.init rat sess) disk vinfo rate).custom.isSome
      = true ∧
    (load_or_initialize_pickle (EphysMetadata.init rat sess) disk vinfo rate).version_info.isSome
      = true := by
  cases disk with
  | none => constructor <;> rfl
  | some loaded =>
    rcases hc : loaded.custom with _ | oc <;>
      rcases hv : loaded.version_info with _ | ov
    case none.none =>
      simp [load_or_initialize_pickle, EphysMetadata.init, hc, hv]
    case none.some =>
      cases ov <;> simp [load_or_initialize_pickle, EphysMetadata.init, hc, hv]
    case some.none =>
      cases oc <;> simp [load_or_initialize_pickle, EphysMetadata.init, hc, hv]
    case some.some =>
      cases oc <;> cases ov <;>
        simp [load_or_initialize_pickle, EphysMetadata.init, hc, hv]

/-- C7. For every bag in which neither the headstage topic nor the harness
topic exists, `extract_pose_timeseries` returns the empty record list (the
condition the caller recognizes as the missing sync topic); the session loop
then skips that session and continues with the remaining sessions instead of
raising; and whenever the headstage topic exists it is used in preference to
the harness fallback, every returned record carrying the headstage source
tag. -/
theorem c7_no_pose_topic_skips (bag : BagFile)
    (h1 : headstageTopicName ∉ bagTopics bag)
    (h2 : harnessTopicName ∉ bagTopics bag) :
    extract_pose_timeseries bag = [] ∧
    (∀ (nm : String) (rest : List SessionDir),
      processAllSessions
          ({ name := nm, hasExistingOutput := false, bags := [bag] } :: rest)
        = SessionOutcome.skippedNoPose :: processAllSessions rest) ∧
    (∀ bag2 : BagFile, headstageTopicName ∈ bagTopics bag2 →
      ∀ r ∈ extract_pose_timeseries bag2, r.source = headstageSourceName) := by
  have hempty : extract_pose_timeseries bag = [] := by
    simp [extract_pose_timeseries, h1, h2]
  refine ⟨hempty, ?_, ?_⟩
  · intro nm rest
    simp [processAllSessions, processSession, hempty]
  · intro bag2 hb r hr
    simp [extract_pose_timeseries, hb] at hr
    obtain ⟨m, hm, rfl⟩ := hr
    rfl

/-- Witness for C7 at a concrete bag carrying only an unrelated topic. -/
theorem c7_no_pose_topic_skips_witness :
    extract_pose_timeseries sampleBagNoPose = [] ∧
    (∀ (nm : String) (rest : List SessionDir),
      processAllSessions
          ({ name := nm, hasExistingOutput := false, bags := [sampleBagNoPose] } :: rest)
        = SessionOutcome.skippedNoPose :: processAllSessions rest) ∧
    (∀ bag2 : BagFile, headstageTopicName ∈ bagTopics bag2 →
      ∀ r ∈ extract_pose_timeseries bag2, r.source = headstageSourceName) :=
  c7_no_pose_topic_skips sampleBagNoPose (by decide) (by decide)
